import Mathlib

/-
Verification of the frame generator in create_test_pngs.py.

The script builds 30 RGBA frames of size 405 x 720.  Each frame is a
gradient whose channels are computed with Python (IEEE-754 binary64)
floating-point arithmetic and truncated with int(), plus ten 5 x 5 yellow
marker squares drawn at positions derived from the frame index.  The
embedding below models the binary64 arithmetic exactly: every float that
the program manipulates is a dyadic rational m / 2 ^ k, represented by the
pair (m, k), and each arithmetic step is followed by correct rounding to
53 significant bits (round to nearest, ties to even).  For the magnitudes
occurring in this program (all finite, normal, smaller than 2 ^ 52 in
absolute value) this is exactly the binary64 semantics.
-/

set_option maxRecDepth 100000

namespace AntSim

/-- Floor of the base-2 logarithm of a, by binary search, for 1 ≤ a < 2 ^ 128
(returns 0 for a = 0).  Written with Nat primitives and cond so that kernel
reduction is cheap. -/
def nlog2 (a : ℕ) : ℕ :=
  let e := cond (Nat.ble (Nat.shiftLeft 1 64) a) 64 0
  let e := cond (Nat.ble (Nat.shiftLeft 1 (e + 32)) a) (e + 32) e
  let e := cond (Nat.ble (Nat.shiftLeft 1 (e + 16)) a) (e + 16) e
  let e := cond (Nat.ble (Nat.shiftLeft 1 (e + 8)) a) (e + 8) e
  let e := cond (Nat.ble (Nat.shiftLeft 1 (e + 4)) a) (e + 4) e
  let e := cond (Nat.ble (Nat.shiftLeft 1 (e + 2)) a) (e + 2) e
  cond (Nat.ble (Nat.shiftLeft 1 (e + 1)) a) (e + 1) e

/-- Round the dyadic rational p / 2 ^ k (p, k naturals) to 53 significant
bits, round to nearest, ties to even.  This is IEEE-754 binary64 rounding of
a nonnegative real for the magnitudes used in this development.  The result
is again an exact dyadic pair (m, j) denoting m / 2 ^ j. -/
def flD (p k : ℕ) : ℕ × ℕ :=
  let L := nlog2 p
  cond (Nat.ble L 52) (p, k)
    (let sh := L - 52
     let t := Nat.shiftRight p sh
     let r := p - Nat.shiftLeft t sh
     let h := Nat.shiftLeft 1 (sh - 1)
     let m := cond (Nat.blt r h) t (cond (Nat.blt h r) (t + 1)
       (cond (Nat.beq (t % 2) 0) t (t + 1)))
     cond (Nat.ble sh k) (m, k - sh) (Nat.shiftLeft m (sh - k), 0))

/-- Round the quotient a / b (b positive, a / b < 2 ^ 52, and a / b either
zero or at least 2 ^ (-64)) to the nearest binary64 value, ties to even,
returned as an exact dyadic pair (m, j) denoting m / 2 ^ j.  This models the
correctly rounded float division of two exactly representable values. -/
def flQ (a b : ℕ) : ℕ × ℕ :=
  let A := Nat.shiftLeft a 64
  let f := cond (Nat.ble (Nat.shiftLeft b 64) A) 64 0
  let f := cond (Nat.ble (Nat.shiftLeft b (f + 32)) A) (f + 32) f
  let f := cond (Nat.ble (Nat.shiftLeft b (f + 16)) A) (f + 16) f
  let f := cond (Nat.ble (Nat.shiftLeft b (f + 8)) A) (f + 8) f
  let f := cond (Nat.ble (Nat.shiftLeft b (f + 4)) A) (f + 4) f
  let f := cond (Nat.ble (Nat.shiftLeft b (f + 2)) A) (f + 2) f
  let f := cond (Nat.ble (Nat.shiftLeft b (f + 1)) A) (f + 1) f
  let s := 116 - f
  let A2 := Nat.shiftLeft a s
  let t := A2 / b
  let r := A2 % b
  let m := cond (Nat.blt (2 * r) b) t (cond (Nat.blt b (2 * r)) (t + 1)
    (cond (Nat.beq (t % 2) 0) t (t + 1)))
  (m, s)

/-- Value of a dyadic pair as a rational, used only in specification
statements. -/
def dval (d : ℕ × ℕ) : ℚ := (d.1 : ℚ) / 2 ^ d.2

/-- time_factor = i / 29.0 (create_test_pngs.py line 24), the correctly
rounded binary64 quotient. -/
def tfD (i : ℕ) : ℕ × ℕ := flQ i 29

/-- Float value of 255 * (x / width), width = 405: the inner part of the red
channel expression on line 29.  x / width is one rounded division, the
multiplication by 255 is a second rounding. -/
def redT2 (x : ℕ) : ℕ × ℕ :=
  let t1 := flQ x 405
  flD (255 * t1.1) t1.2

/-- Float value of (1 - time_factor) on line 29.  The subtraction of two
floats is exact on dyadics and then rounded.  Since the program only
evaluates frame indices i ≤ 29, time_factor ≤ 1 and the difference is
nonnegative; truncated Nat subtraction is exact here. -/
def c4D (i : ℕ) : ℕ × ℕ :=
  let t := tfD i
  flD (Nat.shiftLeft 1 t.2 - t.1) t.2

/-- Float value of 255 * (x / width) * (1 - time_factor)
(create_test_pngs.py line 29), association as in the source:
(255 * (x / width)) * (1 - time_factor), each step correctly rounded. -/
def redD (i x : ℕ) : ℕ × ℕ :=
  let t2 := redT2 x
  let t4 := c4D i
  flD (t2.1 * t4.1) (t2.2 + t4.2)

/-- Float value of 255 * (y / height), height = 720: inner part of the green
channel expression on line 31. -/
def greenT2 (y : ℕ) : ℕ × ℕ :=
  let t1 := flQ y 720
  flD (255 * t1.1) t1.2

/-- Float value of 255 * (y / height) * time_factor
(create_test_pngs.py line 31). -/
def greenD (i y : ℕ) : ℕ × ℕ :=
  let t2 := greenT2 y
  let t := tfD i
  flD (t2.1 * t.1) (t2.2 + t.2)

/-- Float value of 255 * time_factor (create_test_pngs.py line 33). -/
def blueD (i : ℕ) : ℕ × ℕ :=
  let t := tfD i
  flD (255 * t.1) t.2

/-- Truncation int(v) of a nonnegative dyadic float value, as on
lines 29-33 and 39-40. -/
def trunc (d : ℕ × ℕ) : ℕ := Nat.shiftRight d.1 d.2

/-- Storage of a computed channel value into the numpy uint8 buffer: the
value is reduced modulo 256 (lines 29-35). -/
def pix (d : ℕ × ℕ) : ℕ := trunc d % 256

/-- Red channel value stored at column x of frame i (line 29). -/
def redv (i x : ℕ) : ℕ := pix (redD i x)

/-- Green channel value stored at row y of frame i (line 31). -/
def greenv (i y : ℕ) : ℕ := pix (greenD i y)

/-- Blue channel value stored in frame i (line 33). -/
def bluev (i : ℕ) : ℕ := pix (blueD i)

/-- The float literal 0.8: the binary64 value nearest to 4 / 5. -/
def pt8 : ℕ × ℕ := flQ 4 5

/-- Float chain for the ant x position before int() (line 39):
((width * 0.8) * ((i + ant * 3) % 30)) / 30 with width = 405, each
operation correctly rounded.  405 * 0.8 rounds to exactly 324. -/
def antXD (i a : ℕ) : ℕ × ℕ :=
  let c := flD (405 * pt8.1) pt8.2
  let d := flD (c.1 * ((i + a * 3) % 30)) c.2
  flQ d.1 (Nat.shiftLeft 30 d.2)

/-- Float chain for the ant y position before int() (line 40), with
height = 720; 720 * 0.8 rounds to exactly 576. -/
def antYD (i a : ℕ) : ℕ × ℕ :=
  let c := flD (720 * pt8.1) pt8.2
  let d := flD (c.1 * ((i + a * 2) % 30)) c.2
  flQ d.1 (Nat.shiftLeft 30 d.2)

/-- ant_x = int((width * 0.8) * ((i + ant * 3) % 30) / 30) + 50 (line 39). -/
def antX (i a : ℕ) : ℕ := trunc (antXD i a) + 50

/-- ant_y = int((height * 0.8) * ((i + ant * 2) % 30) / 30) + 50 (line 40). -/
def antY (i a : ℕ) : ℕ := trunc (antYD i a) + 50

/-- The eight (i, x) pairs at which the float evaluation of the red channel
lands just below an integer and int() truncates one lower than the exact
real-arithmetic floor. -/
def redExcL : List (ℕ × ℕ) :=
  [(2, 145), (2, 203), (2, 290), (14, 261), (20, 87), (20, 174), (20, 261), (20, 348)]

/-- The two (i, y) pairs at which the float evaluation of the green channel
truncates one lower than the exact real-arithmetic floor. -/
def greenExcL : List (ℕ × ℕ) := [(24, 406), (24, 638)]

/-- Single-cell check for the red channel: given the precomputed factor
c = fl(1 - time_factor) and the table entry t2 = fl(255 * fl(x / 405)), the
stored value, corrected by the exceptional one-off set, equals the exact
floor 17 * x * (29 - i) / 783 of 255 * (x / 405) * (1 - i / 29). -/
def redCell (c : ℕ × ℕ) (i x : ℕ) (t2 : ℕ × ℕ) : Bool :=
  Nat.beq (trunc (flD (t2.1 * c.1) (t2.2 + c.2)) + (if (i, x) ∈ redExcL then 1 else 0))
    (17 * x * (29 - i) / 783)

/-- Fold of redCell along a table of per-column values, counting x up. -/
def redRowChk (c : ℕ × ℕ) (i : ℕ) : ℕ → List (ℕ × ℕ) → Bool
  | _, [] => true
  | x, t2 :: rest => redCell c i x t2 && redRowChk c i (x + 1) rest

/-- Single-cell check for the green channel against the exact floor
17 * y * i / 1392 of 255 * (y / 720) * (i / 29). -/
def greenCell (c : ℕ × ℕ) (i y : ℕ) (t2 : ℕ × ℕ) : Bool :=
  Nat.beq (trunc (flD (t2.1 * c.1) (t2.2 + c.2)) + (if (i, y) ∈ greenExcL then 1 else 0))
    (17 * y * i / 1392)

/-- Fold of greenCell along a table of per-row values, counting y up. -/
def greenRowChk (c : ℕ × ℕ) (i : ℕ) : ℕ → List (ℕ × ℕ) → Bool
  | _, [] => true
  | y, t2 :: rest => greenCell c i y t2 && greenRowChk c i (y + 1) rest

/-- Table of the 405 per-column red factors fl(255 * fl(x / 405)). -/
def tabR : List (ℕ × ℕ) := (List.range 405).map redT2

/-- Table of the 720 per-row green factors fl(255 * fl(y / 720)). -/
def tabG : List (ℕ × ℕ) := (List.range 720).map greenT2

/-- The 405 values of tabR, spelled out, so that per-frame checks can reuse
them without recomputation (proved equal to tabR below). -/
def tabRLit : List (ℕ × ℕ) := [(0, 116), (5671199530762847, 53), (5671199530762847, 52), (8506799296144271, 52), (5671199530762847, 51), (7088999413453558, 51), (8506799296144271, 51), (4962299589417490, 50), (5671199530762847, 50), (6380099472108203, 50), (7088999413453558, 50), (7797899354798914, 50), (8506799296144271, 50), (4607849618744813, 49), (4962299589417490, 49), (5316749560090169, 49), (5671199530762847, 49), (6025649501435525, 49), (6380099472108203, 49), (6734549442780881, 49), (7088999413453558, 49), (7443449384126236, 49), (7797899354798914, 49), (8152349325471592, 49), (8506799296144271, 49), (8861249266816948, 49), (4607849618744813, 48), (4785074604081152, 48), (4962299589417490, 48), (5139524574753830, 48), (5316749560090169, 48), (5493974545426508, 48), (5671199530762847, 48), (5848424516099186, 48), (6025649501435525, 48), (6202874486771863, 48), (6380099472108203, 48), (6557324457444541, 48), (6734549442780881, 48), (6911774428117220, 48), (7088999413453558, 48), (7266224398789898, 48), (7443449384126236, 48), (7620674369462576, 48), (7797899354798914, 48), (7975124340135253, 48), (8152349325471592, 48), (8329574310807931, 48), (8506799296144271, 48), (8684024281480609, 48), (8861249266816948, 48), (4519237126076643, 47), (4607849618744813, 47), (4696462111412983, 47), (4785074604081152, 47), (4873687096749321, 47), (4962299589417490, 47), (5050912082085661, 47), (5139524574753830, 47), (5228137067421999, 47), (5316749560090169, 47), (5405362052758339, 47), (5493974545426508, 47), (5582587038094677, 47), (5671199530762847, 47), (5759812023431016, 47), (5848424516099186, 47), (5937037008767356, 47), (6025649501435525, 47), (6114261994103694, 47), (6202874486771863, 47), (6291486979440034, 47), (6380099472108203, 47), (6468711964776372, 47), (6557324457444541, 47), (6645936950112711, 47), (6734549442780881, 47), (6823161935449050, 47), (6911774428117220, 47), (7000386920785389, 47), (7088999413453558, 47), (7177611906121728, 47), (7266224398789898, 47), (7354836891458067, 47), (7443449384126236, 47), (7532061876794406, 47), (7620674369462576, 47), (7709286862130745, 47), (7797899354798914, 47), (7886511847467084, 47), (7975124340135253, 47), (8063736832803423, 47), (8152349325471592, 47), (8240961818139762, 47), (8329574310807931, 47), (8418186803476100, 47), (8506799296144271, 47), (8595411788812440, 47), (8684024281480609, 47), (8772636774148778, 47), (8861249266816948, 47), (8949861759485118, 47), (4519237126076643, 46), (4563543372410728, 46), (4607849618744813, 46), (4652155865078898, 46), (4696462111412983, 46), (4740768357747067, 46), (4785074604081152, 46), (4829380850415237, 46), (4873687096749321, 46), (4917993343083406, 46), (4962299589417490, 46), (5006605835751576, 46), (5050912082085661, 46), (5095218328419745, 46), (5139524574753830, 46), (5183830821087914, 46), (5228137067421999, 46), (5272443313756084, 46), (5316749560090169, 46), (5361055806424254, 46), (5405362052758339, 46), (5449668299092423, 46), (5493974545426508, 46), (5538280791760592, 46), (5582587038094677, 46), (5626893284428763, 46), (5671199530762847, 46), (5715505777096932, 46), (5759812023431016, 46), (5804118269765101, 46), (5848424516099186, 46), (5892730762433270, 46), (5937037008767356, 46), (5981343255101440, 46), (6025649501435525, 46), (6069955747769610, 46), (6114261994103694, 46), (6158568240437779, 46), (6202874486771863, 46), (6247180733105948, 46), (6291486979440034, 46), (6335793225774118, 46), (6380099472108203, 46), (6424405718442287, 46), (6468711964776372, 46), (6513018211110457, 46), (6557324457444541, 46), (6601630703778627, 46), (6645936950112711, 46), (6690243196446796, 46), (6734549442780881, 46), (6778855689114965, 46), (6823161935449050, 46), (6867468181783134, 46), (6911774428117220, 46), (6956080674451305, 46), (7000386920785389, 46), (7044693167119474, 46), (7088999413453558, 46), (7133305659787643, 46), (7177611906121728, 46), (7221918152455813, 46), (7266224398789898, 46), (7310530645123982, 46), (7354836891458067, 46), (7399143137792152, 46), (7443449384126236, 46), (7487755630460321, 46), (7532061876794406, 46), (7576368123128491, 46), (7620674369462576, 46), (7664980615796660, 46), (7709286862130745, 46), (7753593108464829, 46), (7797899354798914, 46), (7842205601132999, 46), (7886511847467084, 46), (7930818093801169, 46), (7975124340135253, 46), (8019430586469338, 46), (8063736832803423, 46), (8108043079137507, 46), (8152349325471592, 46), (8196655571805677, 46), (8240961818139762, 46), (8285268064473847, 46), (8329574310807931, 46), (8373880557142016, 46), (8418186803476100, 46), (8462493049810185, 46), (8506799296144271, 46), (8551105542478355, 46), (8595411788812440, 46), (8639718035146524, 46), (8684024281480609, 46), (8728330527814694, 46), (8772636774148778, 46), (8816943020482864, 46), (8861249266816948, 46), (8905555513151033, 46), (8949861759485118, 46), (8994168005819202, 46), (4519237126076643, 45), (4541390249243686, 45), (4563543372410728, 45), (4585696495577770, 45), (4607849618744813, 45), (4630002741911855, 45), (4652155865078898, 45), (4674308988245941, 45), (4696462111412983, 45), (4718615234580025, 45), (4740768357747067, 45), (4762921480914110, 45), (4785074604081152, 45), (4807227727248194, 45), (4829380850415237, 45), (4851533973582279, 45), (4873687096749321, 45), (4895840219916364, 45), (4917993343083406, 45), (4940146466250448, 45), (4962299589417490, 45), (4984452712584534, 45), (5006605835751576, 45), (5028758958918618, 45), (5050912082085661, 45), (5073065205252703, 45), (5095218328419745, 45), (5117371451586788, 45), (5139524574753830, 45), (5161677697920872, 45), (5183830821087914, 45), (5205983944254957, 45), (5228137067421999, 45), (5250290190589041, 45), (5272443313756084, 45), (5294596436923127, 45), (5316749560090169, 45), (5338902683257212, 45), (5361055806424254, 45), (5383208929591296, 45), (5405362052758339, 45), (5427515175925381, 45), (5449668299092423, 45), (5471821422259465, 45), (5493974545426508, 45), (5516127668593550, 45), (5538280791760592, 45), (5560433914927635, 45), (5582587038094677, 45), (5604740161261719, 45), (5626893284428763, 45), (5649046407595805, 45), (5671199530762847, 45), (5693352653929889, 45), (5715505777096932, 45), (5737658900263974, 45), (5759812023431016, 45), (5781965146598059, 45), (5804118269765101, 45), (5826271392932143, 45), (5848424516099186, 45), (5870577639266228, 45), (5892730762433270, 45), (5914883885600312, 45), (5937037008767356, 45), (5959190131934398, 45), (5981343255101440, 45), (6003496378268483, 45), (6025649501435525, 45), (6047802624602567, 45), (6069955747769610, 45), (6092108870936652, 45), (6114261994103694, 45), (6136415117270736, 45), (6158568240437779, 45), (6180721363604821, 45), (6202874486771863, 45), (6225027609938906, 45), (6247180733105948, 45), (6269333856272991, 45), (6291486979440034, 45), (6313640102607076, 45), (6335793225774118, 45), (6357946348941160, 45), (6380099472108203, 45), (6402252595275245, 45), (6424405718442287, 45), (6446558841609330, 45), (6468711964776372, 45), (6490865087943414, 45), (6513018211110457, 45), (6535171334277499, 45), (6557324457444541, 45), (6579477580611584, 45), (6601630703778627, 45), (6623783826945669, 45), (6645936950112711, 45), (6668090073279754, 45), (6690243196446796, 45), (6712396319613838, 45), (6734549442780881, 45), (6756702565947923, 45), (6778855689114965, 45), (6801008812282007, 45), (6823161935449050, 45), (6845315058616092, 45), (6867468181783134, 45), (6889621304950178, 45), (6911774428117220, 45), (6933927551284262, 45), (6956080674451305, 45), (6978233797618347, 45), (7000386920785389, 45), (7022540043952431, 45), (7044693167119474, 45), (7066846290286516, 45), (7088999413453558, 45), (7111152536620601, 45), (7133305659787643, 45), (7155458782954685, 45), (7177611906121728, 45), (7199765029288770, 45), (7221918152455813, 45), (7244071275622856, 45), (7266224398789898, 45), (7288377521956940, 45), (7310530645123982, 45), (7332683768291025, 45), (7354836891458067, 45), (7376990014625109, 45), (7399143137792152, 45), (7421296260959194, 45), (7443449384126236, 45), (7465602507293279, 45), (7487755630460321, 45), (7509908753627363, 45), (7532061876794406, 45), (7554214999961449, 45), (7576368123128491, 45), (7598521246295533, 45), (7620674369462576, 45), (7642827492629618, 45), (7664980615796660, 45), (7687133738963703, 45), (7709286862130745, 45), (7731439985297787, 45), (7753593108464829, 45), (7775746231631872, 45), (7797899354798914, 45), (7820052477965956, 45), (7842205601132999, 45), (7864358724300042, 45), (7886511847467084, 45), (7908664970634127, 45), (7930818093801169, 45), (7952971216968211, 45), (7975124340135253, 45), (7997277463302296, 45), (8019430586469338, 45), (8041583709636380, 45), (8063736832803423, 45), (8085889955970465, 45), (8108043079137507, 45), (8130196202304550, 45), (8152349325471592, 45), (8174502448638635, 45), (8196655571805677, 45), (8218808694972720, 45), (8240961818139762, 45), (8263114941306804, 45), (8285268064473847, 45), (8307421187640889, 45), (8329574310807931, 45), (8351727433974974, 45), (8373880557142016, 45), (8396033680309058, 45), (8418186803476100, 45), (8440339926643143, 45), (8462493049810185, 45), (8484646172977227, 45), (8506799296144271, 45), (8528952419311313, 45), (8551105542478355, 45), (8573258665645398, 45), (8595411788812440, 45), (8617564911979482, 45), (8639718035146524, 45), (8661871158313567, 45), (8684024281480609, 45), (8706177404647651, 45), (8728330527814694, 45), (8750483650981736, 45), (8772636774148778, 45), (8794789897315821, 45), (8816943020482864, 45), (8839096143649906, 45), (8861249266816948, 45), (8883402389983991, 45), (8905555513151033, 45), (8927708636318075, 45), (8949861759485118, 45)]

/-- The 720 values of tabG, spelled out (proved equal to tabG below). -/
def tabGLit : List (ℕ × ℕ) := [(0, 116), (6380099472108203, 54), (6380099472108203, 53), (4785074604081152, 52), (6380099472108203, 52), (7975124340135253, 52), (4785074604081152, 51), (5582587038094677, 51), (6380099472108203, 51), (7177611906121728, 51), (7975124340135253, 51), (8772636774148778, 51), (4785074604081152, 50), (5183830821087914, 50), (5582587038094677, 50), (5981343255101440, 50), (6380099472108203, 50), (6778855689114965, 50), (7177611906121728, 50), (7576368123128491, 50), (7975124340135253, 50), (8373880557142016, 50), (8772636774148778, 50), (4585696495577770, 49), (4785074604081152, 49), (4984452712584534, 49), (5183830821087914, 49), (5383208929591296, 49), (5582587038094677, 49), (5781965146598059, 49), (5981343255101440, 49), (6180721363604821, 49), (6380099472108203, 49), (6579477580611584, 49), (6778855689114965, 49), (6978233797618347, 49), (7177611906121728, 49), (7376990014625109, 49), (7576368123128491, 49), (7775746231631872, 49), (7975124340135253, 49), (8174502448638635, 49), (8373880557142016, 49), (8573258665645398, 49), (8772636774148778, 49), (8972014882652160, 49), (4585696495577770, 48), (4685385549829462, 48), (4785074604081152, 48), (4884763658332842, 48), (4984452712584534, 48), (5084141766836224, 48), (5183830821087914, 48), (5283519875339605, 48), (5383208929591296, 48), (5482897983842987, 48), (5582587038094677, 48), (5682276092346368, 48), (5781965146598059, 48), (5881654200849749, 48), (5981343255101440, 48), (6081032309353131, 48), (6180721363604821, 48), (6280410417856512, 48), (6380099472108203, 48), (6479788526359893, 48), (6579477580611584, 48), (6679166634863275, 48), (6778855689114965, 48), (6878544743366656, 48), (6978233797618347, 48), (7077922851870037, 48), (7177611906121728, 48), (7277300960373419, 48), (7376990014625109, 48), (7476679068876800, 48), (7576368123128491, 48), (7676057177380181, 48), (7775746231631872, 48), (7875435285883563, 48), (7975124340135253, 48), (8074813394386944, 48), (8174502448638635, 48), (8274191502890326, 48), (8373880557142016, 48), (8473569611393706, 48), (8573258665645398, 48), (8672947719897088, 48), (8772636774148778, 48), (8872325828400470, 48), (8972014882652160, 48), (4535851968451925, 47), (4585696495577770, 47), (4635541022703616, 47), (4685385549829462, 47), (4735230076955307, 47), (4785074604081152, 47), (4834919131206997, 47), (4884763658332842, 47), (4934608185458688, 47), (4984452712584534, 47), (5034297239710379, 47), (5084141766836224, 47), (5133986293962069, 47), (5183830821087914, 47), (5233675348213760, 47), (5283519875339605, 47), (5333364402465451, 47), (5383208929591296, 47), (5433053456717141, 47), (5482897983842987, 47), (5532742510968832, 47), (5582587038094677, 47), (5632431565220523, 47), (5682276092346368, 47), (5732120619472213, 47), (5781965146598059, 47), (5831809673723904, 47), (5881654200849749, 47), (5931498727975595, 47), (5981343255101440, 47), (6031187782227286, 47), (6081032309353131, 47), (6130876836478976, 47), (6180721363604821, 47), (6230565890730666, 47), (6280410417856512, 47), (6330254944982358, 47), (6380099472108203, 47), (6429943999234048, 47), (6479788526359893, 47), (6529633053485738, 47), (6579477580611584, 47), (6629322107737430, 47), (6679166634863275, 47), (6729011161989120, 47), (6778855689114965, 47), (6828700216240810, 47), (6878544743366656, 47), (6928389270492502, 47), (6978233797618347, 47), (7028078324744192, 47), (7077922851870037, 47), (7127767378995882, 47), (7177611906121728, 47), (7227456433247574, 47), (7277300960373419, 47), (7327145487499264, 47), (7376990014625109, 47), (7426834541750954, 47), (7476679068876800, 47), (7526523596002645, 47), (7576368123128491, 47), (7626212650254336, 47), (7676057177380181, 47), (7725901704506027, 47), (7775746231631872, 47), (7825590758757717, 47), (7875435285883563, 47), (7925279813009408, 47), (7975124340135253, 47), (8024968867261099, 47), (8074813394386944, 47), (8124657921512789, 47), (8174502448638635, 47), (8224346975764480, 47), (8274191502890326, 47), (8324036030016171, 47), (8373880557142016, 47), (8423725084267861, 47), (8473569611393706, 47), (8523414138519552, 47), (8573258665645398, 47), (8623103192771243, 47), (8672947719897088, 47), (8722792247022933, 47), (8772636774148778, 47), (8822481301274624, 47), (8872325828400470, 47), (8922170355526315, 47), (8972014882652160, 47), (4510929704889003, 46), (4535851968451925, 46), (4560774232014848, 46), (4585696495577770, 46), (4610618759140693, 46), (4635541022703616, 46), (4660463286266539, 46), (4685385549829462, 46), (4710307813392384, 46), (4735230076955307, 46), (4760152340518229, 46), (4785074604081152, 46), (4809996867644075, 46), (4834919131206997, 46), (4859841394769920, 46), (4884763658332842, 46), (4909685921895766, 46), (4934608185458688, 46), (4959530449021611, 46), (4984452712584534, 46), (5009374976147456, 46), (5034297239710379, 46), (5059219503273301, 46), (5084141766836224, 46), (5109064030399146, 46), (5133986293962069, 46), (5158908557524992, 46), (5183830821087914, 46), (5208753084650838, 46), (5233675348213760, 46), (5258597611776683, 46), (5283519875339605, 46), (5308442138902528, 46), (5333364402465451, 46), (5358286666028373, 46), (5383208929591296, 46), (5408131193154218, 46), (5433053456717141, 46), (5457975720280064, 46), (5482897983842987, 46), (5507820247405910, 46), (5532742510968832, 46), (5557664774531755, 46), (5582587038094677, 46), (5607509301657600, 46), (5632431565220523, 46), (5657353828783445, 46), (5682276092346368, 46), (5707198355909290, 46), (5732120619472213, 46), (5757042883035136, 46), (5781965146598059, 46), (5806887410160982, 46), (5831809673723904, 46), (5856731937286827, 46), (5881654200849749, 46), (5906576464412672, 46), (5931498727975595, 46), (5956420991538517, 46), (5981343255101440, 46), (6006265518664362, 46), (6031187782227286, 46), (6056110045790208, 46), (6081032309353131, 46), (6105954572916054, 46), (6130876836478976, 46), (6155799100041899, 46), (6180721363604821, 46), (6205643627167744, 46), (6230565890730666, 46), (6255488154293589, 46), (6280410417856512, 46), (6305332681419434, 46), (6330254944982358, 46), (6355177208545280, 46), (6380099472108203, 46), (6405021735671125, 46), (6429943999234048, 46), (6454866262796971, 46), (6479788526359893, 46), (6504710789922816, 46), (6529633053485738, 46), (6554555317048661, 46), (6579477580611584, 46), (6604399844174507, 46), (6629322107737430, 46), (6654244371300352, 46), (6679166634863275, 46), (6704088898426197, 46), (6729011161989120, 46), (6753933425552043, 46), (6778855689114965, 46), (6803777952677888, 46), (6828700216240810, 46), (6853622479803733, 46), (6878544743366656, 46), (6903467006929579, 46), (6928389270492502, 46), (6953311534055424, 46), (6978233797618347, 46), (7003156061181269, 46), (7028078324744192, 46), (7053000588307115, 46), (7077922851870037, 46), (7102845115432960, 46), (7127767378995882, 46), (7152689642558806, 46), (7177611906121728, 46), (7202534169684651, 46), (7227456433247574, 46), (7252378696810496, 46), (7277300960373419, 46), (7302223223936341, 46), (7327145487499264, 46), (7352067751062186, 46), (7376990014625109, 46), (7401912278188032, 46), (7426834541750954, 46), (7451756805313878, 46), (7476679068876800, 46), (7501601332439723, 46), (7526523596002645, 46), (7551445859565568, 46), (7576368123128491, 46), (7601290386691413, 46), (7626212650254336, 46), (7651134913817258, 46), (7676057177380181, 46), (7700979440943104, 46), (7725901704506027, 46), (7750823968068950, 46), (7775746231631872, 46), (7800668495194795, 46), (7825590758757717, 46), (7850513022320640, 46), (7875435285883563, 46), (7900357549446485, 46), (7925279813009408, 46), (7950202076572330, 46), (7975124340135253, 46), (8000046603698176, 46), (8024968867261099, 46), (8049891130824022, 46), (8074813394386944, 46), (8099735657949867, 46), (8124657921512789, 46), (8149580185075712, 46), (8174502448638635, 46), (8199424712201557, 46), (8224346975764480, 46), (8249269239327402, 46), (8274191502890326, 46), (8299113766453248, 46), (8324036030016171, 46), (8348958293579094, 46), (8373880557142016, 46), (8398802820704939, 46), (8423725084267861, 46), (8448647347830784, 46), (8473569611393706, 46), (8498491874956629, 46), (8523414138519552, 46), (8548336402082474, 46), (8573258665645398, 46), (8598180929208320, 46), (8623103192771243, 46), (8648025456334165, 46), (8672947719897088, 46), (8697869983460011, 46), (8722792247022933, 46), (8747714510585856, 46), (8772636774148778, 46), (8797559037711701, 46), (8822481301274624, 46), (8847403564837547, 46), (8872325828400470, 46), (8897248091963392, 46), (8922170355526315, 46), (8947092619089237, 46), (8972014882652160, 46), (8996937146215083, 46), (4510929704889003, 45), (4523390836670464, 45), (4535851968451925, 45), (4548313100233386, 45), (4560774232014848, 45), (4573235363796309, 45), (4585696495577770, 45), (4598157627359232, 45), (4610618759140693, 45), (4623079890922154, 45), (4635541022703616, 45), (4648002154485078, 45), (4660463286266539, 45), (4672924418048000, 45), (4685385549829462, 45), (4697846681610923, 45), (4710307813392384, 45), (4722768945173845, 45), (4735230076955307, 45), (4747691208736768, 45), (4760152340518229, 45), (4772613472299691, 45), (4785074604081152, 45), (4797535735862613, 45), (4809996867644075, 45), (4822457999425536, 45), (4834919131206997, 45), (4847380262988458, 45), (4859841394769920, 45), (4872302526551381, 45), (4884763658332842, 45), (4897224790114304, 45), (4909685921895766, 45), (4922147053677227, 45), (4934608185458688, 45), (4947069317240150, 45), (4959530449021611, 45), (4971991580803072, 45), (4984452712584534, 45), (4996913844365995, 45), (5009374976147456, 45), (5021836107928917, 45), (5034297239710379, 45), (5046758371491840, 45), (5059219503273301, 45), (5071680635054763, 45), (5084141766836224, 45), (5096602898617685, 45), (5109064030399146, 45), (5121525162180608, 45), (5133986293962069, 45), (5146447425743530, 45), (5158908557524992, 45), (5171369689306453, 45), (5183830821087914, 45), (5196291952869376, 45), (5208753084650838, 45), (5221214216432299, 45), (5233675348213760, 45), (5246136479995222, 45), (5258597611776683, 45), (5271058743558144, 45), (5283519875339605, 45), (5295981007121067, 45), (5308442138902528, 45), (5320903270683989, 45), (5333364402465451, 45), (5345825534246912, 45), (5358286666028373, 45), (5370747797809835, 45), (5383208929591296, 45), (5395670061372757, 45), (5408131193154218, 45), (5420592324935680, 45), (5433053456717141, 45), (5445514588498602, 45), (5457975720280064, 45), (5470436852061526, 45), (5482897983842987, 45), (5495359115624448, 45), (5507820247405910, 45), (5520281379187371, 45), (5532742510968832, 45), (5545203642750294, 45), (5557664774531755, 45), (5570125906313216, 45), (5582587038094677, 45), (5595048169876139, 45), (5607509301657600, 45), (5619970433439061, 45), (5632431565220523, 45), (5644892697001984, 45), (5657353828783445, 45), (5669814960564906, 45), (5682276092346368, 45), (5694737224127829, 45), (5707198355909290, 45), (5719659487690752, 45), (5732120619472213, 45), (5744581751253674, 45), (5757042883035136, 45), (5769504014816598, 45), (5781965146598059, 45), (5794426278379520, 45), (5806887410160982, 45), (5819348541942443, 45), (5831809673723904, 45), (5844270805505365, 45), (5856731937286827, 45), (5869193069068288, 45), (5881654200849749, 45), (5894115332631211, 45), (5906576464412672, 45), (5919037596194133, 45), (5931498727975595, 45), (5943959859757056, 45), (5956420991538517, 45), (5968882123319978, 45), (5981343255101440, 45), (5993804386882901, 45), (6006265518664362, 45), (6018726650445824, 45), (6031187782227286, 45), (6043648914008747, 45), (6056110045790208, 45), (6068571177571670, 45), (6081032309353131, 45), (6093493441134592, 45), (6105954572916054, 45), (6118415704697515, 45), (6130876836478976, 45), (6143337968260437, 45), (6155799100041899, 45), (6168260231823360, 45), (6180721363604821, 45), (6193182495386283, 45), (6205643627167744, 45), (6218104758949205, 45), (6230565890730666, 45), (6243027022512128, 45), (6255488154293589, 45), (6267949286075050, 45), (6280410417856512, 45), (6292871549637973, 45), (6305332681419434, 45), (6317793813200896, 45), (6330254944982358, 45), (6342716076763819, 45), (6355177208545280, 45), (6367638340326742, 45), (6380099472108203, 45), (6392560603889664, 45), (6405021735671125, 45), (6417482867452587, 45), (6429943999234048, 45), (6442405131015509, 45), (6454866262796971, 45), (6467327394578432, 45), (6479788526359893, 45), (6492249658141355, 45), (6504710789922816, 45), (6517171921704277, 45), (6529633053485738, 45), (6542094185267200, 45), (6554555317048661, 45), (6567016448830122, 45), (6579477580611584, 45), (6591938712393046, 45), (6604399844174507, 45), (6616860975955968, 45), (6629322107737430, 45), (6641783239518891, 45), (6654244371300352, 45), (6666705503081814, 45), (6679166634863275, 45), (6691627766644736, 45), (6704088898426197, 45), (6716550030207659, 45), (6729011161989120, 45), (6741472293770581, 45), (6753933425552043, 45), (6766394557333504, 45), (6778855689114965, 45), (6791316820896426, 45), (6803777952677888, 45), (6816239084459349, 45), (6828700216240810, 45), (6841161348022272, 45), (6853622479803733, 45), (6866083611585194, 45), (6878544743366656, 45), (6891005875148118, 45), (6903467006929579, 45), (6915928138711040, 45), (6928389270492502, 45), (6940850402273963, 45), (6953311534055424, 45), (6965772665836885, 45), (6978233797618347, 45), (6990694929399808, 45), (7003156061181269, 45), (7015617192962731, 45), (7028078324744192, 45), (7040539456525653, 45), (7053000588307115, 45), (7065461720088576, 45), (7077922851870037, 45), (7090383983651498, 45), (7102845115432960, 45), (7115306247214421, 45), (7127767378995882, 45), (7140228510777344, 45), (7152689642558806, 45), (7165150774340267, 45), (7177611906121728, 45), (7190073037903190, 45), (7202534169684651, 45), (7214995301466112, 45), (7227456433247574, 45), (7239917565029035, 45), (7252378696810496, 45), (7264839828591957, 45), (7277300960373419, 45), (7289762092154880, 45), (7302223223936341, 45), (7314684355717803, 45), (7327145487499264, 45), (7339606619280725, 45), (7352067751062186, 45), (7364528882843648, 45), (7376990014625109, 45), (7389451146406570, 45), (7401912278188032, 45), (7414373409969493, 45), (7426834541750954, 45), (7439295673532416, 45), (7451756805313878, 45), (7464217937095339, 45), (7476679068876800, 45), (7489140200658262, 45), (7501601332439723, 45), (7514062464221184, 45), (7526523596002645, 45), (7538984727784107, 45), (7551445859565568, 45), (7563906991347029, 45), (7576368123128491, 45), (7588829254909952, 45), (7601290386691413, 45), (7613751518472875, 45), (7626212650254336, 45), (7638673782035797, 45), (7651134913817258, 45), (7663596045598720, 45), (7676057177380181, 45), (7688518309161642, 45), (7700979440943104, 45), (7713440572724566, 45), (7725901704506027, 45), (7738362836287488, 45), (7750823968068950, 45), (7763285099850411, 45), (7775746231631872, 45), (7788207363413334, 45), (7800668495194795, 45), (7813129626976256, 45), (7825590758757717, 45), (7838051890539179, 45), (7850513022320640, 45), (7862974154102101, 45), (7875435285883563, 45), (7887896417665024, 45), (7900357549446485, 45), (7912818681227946, 45), (7925279813009408, 45), (7937740944790869, 45), (7950202076572330, 45), (7962663208353792, 45), (7975124340135253, 45), (7987585471916714, 45), (8000046603698176, 45), (8012507735479638, 45), (8024968867261099, 45), (8037429999042560, 45), (8049891130824022, 45), (8062352262605483, 45), (8074813394386944, 45), (8087274526168405, 45), (8099735657949867, 45), (8112196789731328, 45), (8124657921512789, 45), (8137119053294251, 45), (8149580185075712, 45), (8162041316857173, 45), (8174502448638635, 45), (8186963580420096, 45), (8199424712201557, 45), (8211885843983018, 45), (8224346975764480, 45), (8236808107545941, 45), (8249269239327402, 45), (8261730371108864, 45), (8274191502890326, 45), (8286652634671787, 45), (8299113766453248, 45), (8311574898234710, 45), (8324036030016171, 45), (8336497161797632, 45), (8348958293579094, 45), (8361419425360555, 45), (8373880557142016, 45), (8386341688923477, 45), (8398802820704939, 45), (8411263952486400, 45), (8423725084267861, 45), (8436186216049323, 45), (8448647347830784, 45), (8461108479612245, 45), (8473569611393706, 45), (8486030743175168, 45), (8498491874956629, 45), (8510953006738090, 45), (8523414138519552, 45), (8535875270301013, 45), (8548336402082474, 45), (8560797533863936, 45), (8573258665645398, 45), (8585719797426859, 45), (8598180929208320, 45), (8610642060989782, 45), (8623103192771243, 45), (8635564324552704, 45), (8648025456334165, 45), (8660486588115627, 45), (8672947719897088, 45), (8685408851678549, 45), (8697869983460011, 45), (8710331115241472, 45), (8722792247022933, 45), (8735253378804395, 45), (8747714510585856, 45), (8760175642367317, 45), (8772636774148778, 45), (8785097905930240, 45), (8797559037711701, 45), (8810020169493162, 45), (8822481301274624, 45), (8834942433056086, 45), (8847403564837547, 45), (8859864696619008, 45), (8872325828400470, 45), (8884786960181931, 45), (8897248091963392, 45), (8909709223744854, 45), (8922170355526315, 45), (8934631487307776, 45), (8947092619089237, 45), (8959553750870699, 45)]

/-- Exhaustive check of the 30 blue channel values against the exact floor
255 * i / 29. -/
def blueBulkChk : Bool :=
  (List.range 30).all (fun i => Nat.beq (trunc (blueD i)) (255 * i / 29))

/-- Exhaustive check of the 300 marker positions against the exact floors
324 * m / 30 + 50 and 576 * m / 30 + 50. -/
def antBulkChk : Bool :=
  (List.range 30).all (fun i => (List.range 10).all (fun a =>
    Nat.beq (antX i a) (324 * ((i + a * 3) % 30) / 30 + 50) &&
    Nat.beq (antY i a) (576 * ((i + a * 2) % 30) / 30 + 50)))


/-- One RGBA pixel: four unsigned 8-bit channels red, green, blue, alpha. -/
structure Pixel where
  r : ℕ
  g : ℕ
  b : ℕ
  a : ℕ
deriving DecidableEq

/-- The marker color [255, 255, 0, 255] written on line 46. -/
def yellow : Pixel := ⟨255, 255, 0, 255⟩

/-- The gradient frame produced by the pixel loops of lines 26-35: every
pixel of frame i gets red from its column, green from its row, blue from the
frame index, and alpha 255.  The loops cover every in-bounds pixel, so the
zero initialization of line 21 is fully overwritten. -/
def base (i : ℕ) : ℕ → ℕ → Pixel := fun x y => ⟨redv i x, greenv i y, bluev i, 255⟩

/-- Offsets range(-2, 3) of the marker square loops (lines 43-44). -/
def offs : List ℤ := [-2, -1, 0, 1, 2]

/-- Pixel positions written for marker a of frame i, in source order:
dy outer, dx inner (lines 43-46). -/
def antPts (i a : ℕ) : List (ℤ × ℤ) :=
  offs.flatMap (fun dy => offs.map (fun dx => ((antX i a : ℤ) + dx, (antY i a : ℤ) + dy)))

/-- All marker pixel positions of frame i, ants in source order
(lines 38-46). -/
def allPts (i : ℕ) : List (ℤ × ℤ) := (List.range 10).flatMap (fun a => antPts i a)

/-- Bounds check of line 45: 0 <= ant_x + dx < width and
0 <= ant_y + dy < height. -/
def inB (p : ℤ × ℤ) : Prop := 0 ≤ p.1 ∧ p.1 < 405 ∧ 0 ≤ p.2 ∧ p.2 < 720

instance (p : ℤ × ℤ) : Decidable (inB p) :=
  inferInstanceAs (Decidable (0 ≤ p.1 ∧ p.1 < 405 ∧ 0 ≤ p.2 ∧ p.2 < 720))

/-- Overwrite one pixel of a frame function. -/
def setPix (f : ℕ → ℕ → Pixel) (px py : ℕ) (c : Pixel) : ℕ → ℕ → Pixel :=
  fun x y => if x = px ∧ y = py then c else f x y

/-- Sequence of guarded pixel writes of one color, in list order: the
embedding of the marker drawing loop (lines 43-46). -/
def writePts (c : Pixel) (ps : List (ℤ × ℤ)) (f : ℕ → ℕ → Pixel) : ℕ → ℕ → Pixel :=
  ps.foldl (fun g p => if inB p then setPix g p.1.toNat p.2.toNat c else g) f

/-- The finished frame i: the gradient with all in-bounds marker pixels
overwritten in yellow. -/
def finalFrame (i : ℕ) : ℕ → ℕ → Pixel := writePts yellow (allPts i) (base i)

/-- A pixel (x, y) is hit by some in-bounds write position of the list. -/
def hitBy (ps : List (ℤ × ℤ)) (x y : ℕ) : Prop :=
  ∃ p ∈ ps, inB p ∧ x = p.1.toNat ∧ y = p.2.toNat

instance (ps : List (ℤ × ℤ)) (x y : ℕ) : Decidable (hitBy ps x y) :=
  List.decidableBEx (fun p => inB p ∧ x = p.1.toNat ∧ y = p.2.toNat) ps

/-- Pixel (x, y) of frame i is covered by a marker square. -/
def isMarker (i x y : ℕ) : Prop := hitBy (allPts i) x y

instance (i x y : ℕ) : Decidable (isMarker i x y) :=
  inferInstanceAs (Decidable (hitBy (allPts i) x y))

/-- One frame image: fixed dimensions and a pixel map with four channels
per pixel. -/
structure FrameImg where
  width : ℕ
  height : ℕ
  pixel : ℕ → ℕ → Pixel

/-- One written output file: its name and its image. -/
structure OutFile where
  name : String
  image : FrameImg

/-- Zero padding to four digits, the format {i:04d} of line 50. -/
def pad4 (n : ℕ) : String :=
  let s := toString n
  String.mk (List.replicate (4 - s.length) '0') ++ s

/-- File name frame_{i:04d}.png of line 50. -/
def fname (i : ℕ) : String := "frame_" ++ pad4 i ++ ".png"

/-- The complete run of create_test_frames (lines 19-51): thirty files, the
file for index i holding the 405 x 720 four-channel frame i.  The run reads
no input and depends on nothing but the loop index. -/
def createTestFrames : List OutFile :=
  (List.range 30).map (fun i => ⟨fname i, ⟨405, 720, finalFrame i⟩⟩)

theorem tabR_lit : tabR = tabRLit := by decide!

theorem tabG_lit : tabG = tabGLit := by decide!

set_option maxHeartbeats 4000000 in
/-- Exhaustive kernel check of all 30 x 405 red channel values, one frame at
a time so that each check stays small. -/
theorem redRows_true : ∀ i < 30, redRowChk (c4D i) i 0 tabRLit = true := by
  intro i hi
  interval_cases i <;> decide!

set_option maxHeartbeats 4000000 in
/-- Exhaustive kernel check of all 30 x 720 green channel values, one frame
at a time. -/
theorem greenRows_true : ∀ i < 30, greenRowChk (tfD i) i 0 tabGLit = true := by
  intro i hi
  interval_cases i <;> decide!

theorem blueBulkFact : blueBulkChk = true := by decide!

theorem antBulkFact : antBulkChk = true := by decide!

/-- Soundness of the red row fold: every cell along the table passed. -/
theorem redRowChk_sound (c : ℕ × ℕ) (i : ℕ) :
    ∀ (t : List (ℕ × ℕ)) (x : ℕ), redRowChk c i x t = true →
      ∀ j, ∀ h : j < t.length, redCell c i (x + j) (t.get ⟨j, h⟩) = true := by
  intro t
  induction t with
  | nil => intro x _ j h; exact absurd h (by simp)
  | cons hd tl ih =>
    intro x hall j h
    rw [redRowChk, Bool.and_eq_true] at hall
    cases j with
    | zero => simpa using hall.1
    | succ j2 =>
      have h2 : j2 < tl.length := by simpa using Nat.lt_of_succ_lt_succ h
      have := ih (x + 1) hall.2 j2 h2
      simpa [List.get_cons_succ, Nat.add_assoc, Nat.add_comm 1 j2] using this

/-- Soundness of the green row fold. -/
theorem greenRowChk_sound (c : ℕ × ℕ) (i : ℕ) :
    ∀ (t : List (ℕ × ℕ)) (y : ℕ), greenRowChk c i y t = true →
      ∀ j, ∀ h : j < t.length, greenCell c i (y + j) (t.get ⟨j, h⟩) = true := by
  intro t
  induction t with
  | nil => intro y _ j h; exact absurd h (by simp)
  | cons hd tl ih =>
    intro y hall j h
    rw [greenRowChk, Bool.and_eq_true] at hall
    cases j with
    | zero => simpa using hall.1
    | succ j2 =>
      have h2 : j2 < tl.length := by simpa using Nat.lt_of_succ_lt_succ h
      have := ih (y + 1) hall.2 j2 h2
      simpa [List.get_cons_succ, Nat.add_assoc, Nat.add_comm 1 j2] using this

/-- The red channel value of the program, corrected by the exceptional
one-off set, is the exact real-arithmetic floor, stated before the modulo
256 store. -/
theorem redTrunc_spec {i x : ℕ} (hi : i < 30) (hx : x < 405) :
    trunc (redD i x) + (if (i, x) ∈ redExcL then 1 else 0) = 17 * x * (29 - i) / 783 := by
  have h1 : redRowChk (c4D i) i 0 tabR = true := by
    rw [tabR_lit]
    exact redRows_true i hi
  have hlen : x < tabR.length := by simpa [tabR] using hx
  have h2 := redRowChk_sound (c4D i) i tabR 0 h1 x hlen
  have h3 : tabR.get ⟨x, hlen⟩ = redT2 x := by
    simp [tabR, List.get_eq_getElem, List.getElem_map]
  rw [h3] at h2
  have h4 := Nat.eq_of_beq_eq_true (by simpa [redCell] using h2)
  simpa [redD] using h4

/-- The green channel value of the program, corrected by the exceptional
one-off set, is the exact real-arithmetic floor, before the modulo 256
store. -/
theorem greenTrunc_spec {i y : ℕ} (hi : i < 30) (hy : y < 720) :
    trunc (greenD i y) + (if (i, y) ∈ greenExcL then 1 else 0) = 17 * y * i / 1392 := by
  have h1 : greenRowChk (tfD i) i 0 tabG = true := by
    rw [tabG_lit]
    exact greenRows_true i hi
  have hlen : y < tabG.length := by simpa [tabG] using hy
  have h2 := greenRowChk_sound (tfD i) i tabG 0 h1 y hlen
  have h3 : tabG.get ⟨y, hlen⟩ = greenT2 y := by
    simp [tabG, List.get_eq_getElem, List.getElem_map]
  rw [h3] at h2
  have h4 := Nat.eq_of_beq_eq_true (by simpa [greenCell] using h2)
  simpa [greenD] using h4

/-- The blue channel value of the program is the exact floor 255 * i / 29. -/
theorem blueTrunc_spec {i : ℕ} (hi : i < 30) :
    trunc (blueD i) = 255 * i / 29 := by
  have hall := List.all_eq_true.mp blueBulkFact
  exact Nat.eq_of_beq_eq_true (hall i (List.mem_range.mpr hi))

/-- The marker positions of the program equal the exact floors: the float
chain for ant_x and ant_y computes 324 * m / 30 + 50 and 576 * m / 30 + 50
exactly. -/
theorem ant_spec {i a : ℕ} (hi : i < 30) (ha : a < 10) :
    antX i a = 324 * ((i + a * 3) % 30) / 30 + 50 ∧
    antY i a = 576 * ((i + a * 2) % 30) / 30 + 50 := by
  have hall := List.all_eq_true.mp antBulkFact
  have h1 := List.all_eq_true.mp (hall i (List.mem_range.mpr hi)) a (List.mem_range.mpr ha)
  rw [Bool.and_eq_true] at h1
  exact ⟨Nat.eq_of_beq_eq_true h1.1, Nat.eq_of_beq_eq_true h1.2⟩

/-- Upper bound on the exact red floor: at most 254 (x ≤ 404, so the exact
value stays below 255). -/
theorem redSpec_le {i x : ℕ} (hx : x < 405) : 17 * x * (29 - i) / 783 ≤ 254 := by
  have h1 : 17 * x * (29 - i) ≤ 199172 := by
    calc 17 * x * (29 - i) ≤ 17 * 404 * 29 := by
          apply Nat.mul_le_mul
          · exact Nat.mul_le_mul_left 17 (by omega)
          · omega
      _ = 199172 := by norm_num
  calc 17 * x * (29 - i) / 783 ≤ 199172 / 783 := Nat.div_le_div_right h1
    _ = 254 := by norm_num

/-- Upper bound on the exact green floor: at most 254 (y ≤ 719). -/
theorem greenSpec_le {i y : ℕ} (hi : i < 30) (hy : y < 720) : 17 * y * i / 1392 ≤ 254 := by
  have h1 : 17 * y * i ≤ 354467 := by
    calc 17 * y * i ≤ 17 * 719 * 29 := by
          apply Nat.mul_le_mul
          · exact Nat.mul_le_mul_left 17 (by omega)
          · omega
      _ = 354467 := by norm_num
  calc 17 * y * i / 1392 ≤ 354467 / 1392 := Nat.div_le_div_right h1
    _ = 254 := by norm_num

/-- Upper bound on the exact blue floor: at most 255. -/
theorem blueSpec_le {i : ℕ} (hi : i < 30) : 255 * i / 29 ≤ 255 := by
  have h1 : 255 * i ≤ 255 * 29 := Nat.mul_le_mul_left 255 (by omega)
  calc 255 * i / 29 ≤ 255 * 29 / 29 := Nat.div_le_div_right h1
    _ = 255 := by norm_num

/-- The truncated red value fits in a byte, so the uint8 store is the
identity on it. -/
theorem redv_eq_trunc {i x : ℕ} (hi : i < 30) (hx : x < 405) :
    redv i x = trunc (redD i x) := by
  have h1 := redTrunc_spec hi hx
  have h2 := redSpec_le (i := i) hx
  have : trunc (redD i x) ≤ 254 := by omega
  simp only [redv, pix]
  omega

/-- The truncated green value fits in a byte, so the uint8 store is the
identity on it. -/
theorem greenv_eq_trunc {i y : ℕ} (hi : i < 30) (hy : y < 720) :
    greenv i y = trunc (greenD i y) := by
  have h1 := greenTrunc_spec hi hy
  have h2 := greenSpec_le hi hy
  have : trunc (greenD i y) ≤ 254 := by omega
  simp only [greenv, pix]
  omega

/-- The truncated blue value fits in a byte, so the uint8 store is the
identity on it. -/
theorem bluev_eq_trunc {i : ℕ} (hi : i < 30) :
    bluev i = trunc (blueD i) := by
  have h1 := blueTrunc_spec hi
  have h2 := blueSpec_le hi
  have : trunc (blueD i) ≤ 255 := by omega
  simp only [bluev, pix]
  omega

/-- Membership in the offset list is the interval [-2, 2]. -/
theorem mem_offs {z : ℤ} : z ∈ offs ↔ -2 ≤ z ∧ z ≤ 2 := by
  simp [offs]
  omega

/-- Shape of the marker position list: exactly the 25 offset positions of
each of the ten ants. -/
theorem mem_allPts {i : ℕ} {p : ℤ × ℤ} :
    p ∈ allPts i ↔ ∃ a, a < 10 ∧ ∃ dx dy : ℤ, (-2 ≤ dx ∧ dx ≤ 2) ∧ (-2 ≤ dy ∧ dy ≤ 2) ∧
      p = ((antX i a : ℤ) + dx, (antY i a : ℤ) + dy) := by
  constructor
  · intro hp
    obtain ⟨a, ha, hp2⟩ := List.mem_flatMap.mp hp
    obtain ⟨dy, hdy, hp3⟩ := List.mem_flatMap.mp hp2
    obtain ⟨dx, hdx, rfl⟩ := List.mem_map.mp hp3
    exact ⟨a, List.mem_range.mp ha, dx, dy, mem_offs.mp hdx, mem_offs.mp hdy, rfl⟩
  · rintro ⟨a, ha, dx, dy, hdx, hdy, rfl⟩
    exact List.mem_flatMap.mpr ⟨a, List.mem_range.mpr ha,
      List.mem_flatMap.mpr ⟨dy, mem_offs.mpr hdy, List.mem_map.mpr ⟨dx, mem_offs.mpr hdx, rfl⟩⟩⟩

/-- Pointwise description of a write sequence: a pixel holds the written
color exactly when some in-bounds position of the list names it, and is
untouched otherwise.  All writes here use one color, so order is
irrelevant. -/
theorem writePts_apply (c : Pixel) :
    ∀ (ps : List (ℤ × ℤ)) (f : ℕ → ℕ → Pixel) (x y : ℕ),
      writePts c ps f x y = if hitBy ps x y then c else f x y := by
  intro ps
  induction ps with
  | nil =>
    intro f x y
    simp [writePts, hitBy]
  | cons p ps ih =>
    intro f x y
    have hstep : writePts c (p :: ps) f =
        writePts c ps (if inB p then setPix f p.1.toNat p.2.toNat c else f) := rfl
    rw [hstep, ih]
    by_cases hps : hitBy ps x y
    · have hcons : hitBy (p :: ps) x y := by
        obtain ⟨q, hq, h2⟩ := hps
        exact ⟨q, List.mem_cons_of_mem _ hq, h2⟩
      simp [hcons, hps]
    · by_cases hp : inB p
      · by_cases hxy : x = p.1.toNat ∧ y = p.2.toNat
        · have hcons : hitBy (p :: ps) x y := ⟨p, List.mem_cons_self p ps, hp, hxy.1, hxy.2⟩
          rw [if_neg hps, if_pos hcons, if_pos hp]
          simp only [setPix]
          rw [if_pos hxy]
        · have hno : ¬ hitBy (p :: ps) x y := by
            rintro ⟨q, hq, hq2⟩
            rcases List.mem_cons.mp hq with h | h
            · rw [h] at hq2; exact hxy ⟨hq2.2.1, hq2.2.2⟩
            · exact hps ⟨q, h, hq2⟩
          simp [hno, hps, hp, setPix, hxy]
      · have hno : ¬ hitBy (p :: ps) x y := by
          rintro ⟨q, hq, hq2⟩
          rcases List.mem_cons.mp hq with h | h
          · rw [h] at hq2; exact hp hq2.1
          · exact hps ⟨q, h, hq2⟩
        simp [hno, hps, hp]

/-- The finished frame, pointwise: yellow on marker pixels, the gradient
elsewhere. -/
theorem finalFrame_eq (i x y : ℕ) :
    finalFrame i x y = if isMarker i x y then yellow else base i x y :=
  writePts_apply yellow (allPts i) (base i) x y

/-- Marker center coordinates stay within [50, 363] x [50, 606]: the whole
5 x 5 square is strictly inside the 405 x 720 frame. -/
theorem antBounds {i a : ℕ} (hi : i < 30) (ha : a < 10) :
    50 ≤ antX i a ∧ antX i a ≤ 363 ∧ 50 ≤ antY i a ∧ antY i a ≤ 606 := by
  obtain ⟨hx, hy⟩ := ant_spec hi ha
  have hmx : (i + a * 3) % 30 ≤ 29 := Nat.le_of_lt_succ (Nat.mod_lt _ (by norm_num))
  have hmy : (i + a * 2) % 30 ≤ 29 := Nat.le_of_lt_succ (Nat.mod_lt _ (by norm_num))
  have h1 : 324 * ((i + a * 3) % 30) / 30 ≤ 313 := by
    calc 324 * ((i + a * 3) % 30) / 30 ≤ 324 * 29 / 30 :=
          Nat.div_le_div_right (Nat.mul_le_mul_left 324 hmx)
      _ = 313 := by norm_num
  have h2 : 576 * ((i + a * 2) % 30) / 30 ≤ 556 := by
    calc 576 * ((i + a * 2) % 30) / 30 ≤ 576 * 29 / 30 :=
          Nat.div_le_div_right (Nat.mul_le_mul_left 576 hmy)
      _ = 556 := by norm_num
  omega

/-- No marker pixel ever lies on the row y = 0: all marker rows are at
least 48. -/
theorem notMarkerRow0 {i x : ℕ} (hi : i < 30) : ¬ isMarker i x 0 := by
  rintro ⟨p, hp, hinB, hx0, hy0⟩
  obtain ⟨a, ha, dx, dy, hdx, hdy, hpe⟩ := mem_allPts.mp hp
  obtain ⟨hb1, hb2, hb3, hb4⟩ := antBounds hi ha
  rw [hpe] at hy0
  simp only at hy0
  omega

/-- No marker pixel ever lies in the column x = 0. -/
theorem notMarkerCol0 {i y : ℕ} (hi : i < 30) : ¬ isMarker i 0 y := by
  rintro ⟨p, hp, hinB, hx0, hy0⟩
  obtain ⟨a, ha, dx, dy, hdx, hdy, hpe⟩ := mem_allPts.mp hp
  obtain ⟨hb1, hb2, hb3, hb4⟩ := antBounds hi ha
  rw [hpe] at hx0
  simp only at hx0
  omega

/-- Integer floor of a quotient of natural casts is natural division. -/
theorem floorQ (a b : ℕ) : ⌊((a : ℚ)) / (b : ℚ)⌋ = ((a / b : ℕ) : ℤ) := by
  rw [← Nat.floor_div_eq_div (α := ℚ) a b]
  exact (Int.natCast_floor_eq_floor (by positivity)).symm

/-- The exact red formula of the specification as a natural division. -/
theorem redFloor_eq {i x : ℕ} (hi : i ≤ 29) :
    ⌊(255 : ℚ) * ((x : ℚ) / 405) * (1 - (i : ℚ) / 29)⌋ = ((17 * x * (29 - i) / 783 : ℕ) : ℤ) := by
  have h1 : (255 : ℚ) * ((x : ℚ) / 405) * (1 - (i : ℚ) / 29) =
      ((17 * x * (29 - i) : ℕ) : ℚ) / ((783 : ℕ) : ℚ) := by
    push_cast [Nat.cast_sub hi]
    field_simp
    ring
  rw [h1, floorQ]

/-- The exact green formula of the specification as a natural division. -/
theorem greenFloor_eq {i y : ℕ} :
    ⌊(255 : ℚ) * ((y : ℚ) / 720) * ((i : ℚ) / 29)⌋ = ((17 * y * i / 1392 : ℕ) : ℤ) := by
  have h1 : (255 : ℚ) * ((y : ℚ) / 720) * ((i : ℚ) / 29) =
      ((17 * y * i : ℕ) : ℚ) / ((1392 : ℕ) : ℚ) := by
    push_cast
    field_simp
    ring
  rw [h1, floorQ]

/-- The exact blue formula of the specification as a natural division. -/
theorem blueFloor_eq {i : ℕ} :
    ⌊(255 : ℚ) * ((i : ℚ) / 29)⌋ = ((255 * i / 29 : ℕ) : ℤ) := by
  have h1 : (255 : ℚ) * ((i : ℚ) / 29) = ((255 * i : ℕ) : ℚ) / ((29 : ℕ) : ℚ) := by
    push_cast
    ring
  rw [h1, floorQ]

/-- The exact marker position formula of the specification as a natural
division: 405 * 0.8 = 324 exactly in real arithmetic. -/
theorem antFloorX_eq (m : ℕ) :
    ⌊(405 : ℚ) * (4 / 5) * ((m : ℕ) : ℚ) / 30⌋ = ((324 * m / 30 : ℕ) : ℤ) := by
  have h1 : (405 : ℚ) * (4 / 5) * ((m : ℕ) : ℚ) / 30 = ((324 * m : ℕ) : ℚ) / ((30 : ℕ) : ℚ) := by
    push_cast
    ring
  rw [h1, floorQ]

/-- The exact marker position formula for the y coordinate:
720 * 0.8 = 576 exactly in real arithmetic. -/
theorem antFloorY_eq (m : ℕ) :
    ⌊(720 : ℚ) * (4 / 5) * ((m : ℕ) : ℚ) / 30⌋ = ((576 * m / 30 : ℕ) : ℤ) := by
  have h1 : (720 : ℚ) * (4 / 5) * ((m : ℕ) : ℚ) / 30 = ((576 * m : ℕ) : ℚ) / ((30 : ℕ) : ℚ) := by
    push_cast
    ring
  rw [h1, floorQ]

/-- The thirty exact blue floors are pairwise distinct. -/
theorem blue_floor_inj : ∀ i < 30, ∀ j < 30, i ≠ j → 255 * i / 29 ≠ 255 * j / 29 := by
  decide

/-- C1, counterexample.  At frame 2, pixel (145, 0) is not covered by a
marker, yet the stored red value is 84 while the exact floor of
255 * (x / 405) * (1 - i / 29) is 85: the double-precision evaluation lands
just below the integer 85 and int() truncates it to 84. -/
theorem C1_counterexample :
    ¬ isMarker 2 145 0 ∧ (finalFrame 2 145 0).r = 84 ∧
      ⌊(255 : ℚ) * ((145 : ℚ) / 405) * (1 - (2 : ℚ) / 29)⌋ = 85 := by
  have hm : ¬ isMarker 2 145 0 := notMarkerRow0 (by norm_num)
  refine ⟨hm, ?_, ?_⟩
  · rw [finalFrame_eq, if_neg hm]
    have h1 := redTrunc_spec (i := 2) (x := 145) (by norm_num) (by norm_num)
    have h2 := redv_eq_trunc (i := 2) (x := 145) (by norm_num) (by norm_num)
    have h3 : ((2, 145) : ℕ × ℕ) ∈ redExcL := by simp [redExcL]
    rw [if_pos h3] at h1
    norm_num at h1
    show redv 2 145 = 84
    omega
  · norm_num

/-- C1, amended.  For every frame i < 30 and every in-bounds pixel (x, y)
not covered by a marker, the stored channels are the exact floors
red = floor(255 (x/405) (1 - i/29)), green = floor(255 (y/720) (i/29)),
blue = floor(255 (i/29)) and alpha = 255, except that at the eight pairs
(i, x) of redExcL the red value is one below its floor and at the two pairs
(i, y) of greenExcL the green value is one below its floor, the
double-precision evaluation truncating one lower there. -/
theorem C1_amended (i x y : ℕ) (hi : i < 30) (hx : x < 405) (hy : y < 720)
    (hm : ¬ isMarker i x y) :
    ((finalFrame i x y).r : ℤ) + (if (i, x) ∈ redExcL then 1 else 0) =
      ⌊(255 : ℚ) * ((x : ℚ) / 405) * (1 - (i : ℚ) / 29)⌋ ∧
    ((finalFrame i x y).g : ℤ) + (if (i, y) ∈ greenExcL then 1 else 0) =
      ⌊(255 : ℚ) * ((y : ℚ) / 720) * ((i : ℚ) / 29)⌋ ∧
    ((finalFrame i x y).b : ℤ) = ⌊(255 : ℚ) * ((i : ℚ) / 29)⌋ ∧
    (finalFrame i x y).a = 255 := by
  rw [finalFrame_eq, if_neg hm]
  refine ⟨?_, ?_, ?_, rfl⟩
  · show ((redv i x : ℤ)) + _ = _
    rw [redFloor_eq (by omega)]
    have h1 := redTrunc_spec hi hx
    rw [← redv_eq_trunc hi hx] at h1
    by_cases hmem : (i, x) ∈ redExcL
    · rw [if_pos hmem] at h1 ⊢
      exact_mod_cast h1
    · rw [if_neg hmem] at h1 ⊢
      exact_mod_cast h1
  · show ((greenv i y : ℤ)) + _ = _
    rw [greenFloor_eq]
    have h1 := greenTrunc_spec hi hy
    rw [← greenv_eq_trunc hi hy] at h1
    by_cases hmem : (i, y) ∈ greenExcL
    · rw [if_pos hmem] at h1 ⊢
      exact_mod_cast h1
    · rw [if_neg hmem] at h1 ⊢
      exact_mod_cast h1
  · show ((bluev i : ℤ)) = _
    rw [blueFloor_eq]
    have h1 := blueTrunc_spec hi
    rw [← bluev_eq_trunc hi] at h1
    exact_mod_cast h1

/-- C1, witness for the amended theorem at frame 0, pixel (5, 0). -/
theorem C1_amended_witness :
    (0 : ℕ) < 30 ∧ (5 : ℕ) < 405 ∧ (0 : ℕ) < 720 ∧ ¬ isMarker 0 5 0 ∧
    (((finalFrame 0 5 0).r : ℤ) + (if ((0, 5) : ℕ × ℕ) ∈ redExcL then 1 else 0) =
      ⌊(255 : ℚ) * ((5 : ℕ) : ℚ) / 405 * (1 - ((0 : ℕ) : ℚ) / 29)⌋ ∧
     ((finalFrame 0 5 0).g : ℤ) + (if ((0, 0) : ℕ × ℕ) ∈ greenExcL then 1 else 0) =
      ⌊(255 : ℚ) * (((0 : ℕ) : ℚ) / 720) * (((0 : ℕ) : ℚ) / 29)⌋ ∧
     ((finalFrame 0 5 0).b : ℤ) = ⌊(255 : ℚ) * (((0 : ℕ) : ℚ) / 29)⌋ ∧
     (finalFrame 0 5 0).a = 255) := by
  refine ⟨by norm_num, by norm_num, by norm_num, notMarkerRow0 (by norm_num), ?_⟩
  have h := C1_amended 0 5 0 (by norm_num) (by norm_num) (by norm_num)
    (notMarkerRow0 (by norm_num))
  convert h using 4
  ring

/-- C2.  The marker positions are the exact floors
ant_x = floor(405 * 0.8 * ((i + 3 ant) mod 30) / 30) + 50 and
ant_y = floor(720 * 0.8 * ((i + 2 ant) mod 30) / 30) + 50, and every
in-bounds pixel of the 5 x 5 square around them holds exactly
(255, 255, 0, 255) in the finished frame. -/
theorem C2_markers (i a : ℕ) (hi : i < 30) (ha : a < 10) :
    ((antX i a : ℤ) = ⌊(405 : ℚ) * (4 / 5) * ((((i + a * 3) % 30 : ℕ)) : ℚ) / 30⌋ + 50 ∧
     (antY i a : ℤ) = ⌊(720 : ℚ) * (4 / 5) * ((((i + a * 2) % 30 : ℕ)) : ℚ) / 30⌋ + 50) ∧
    ∀ dx dy : ℤ, -2 ≤ dx → dx ≤ 2 → -2 ≤ dy → dy ≤ 2 →
      inB ((antX i a : ℤ) + dx, (antY i a : ℤ) + dy) →
      finalFrame i ((antX i a : ℤ) + dx).toNat ((antY i a : ℤ) + dy).toNat = yellow := by
  obtain ⟨hax, hay⟩ := ant_spec hi ha
  refine ⟨⟨?_, ?_⟩, ?_⟩
  · rw [antFloorX_eq, hax]
    push_cast
    ring
  · rw [antFloorY_eq, hay]
    push_cast
    ring
  · intro dx dy h1 h2 h3 h4 hinB
    have hmem : ((antX i a : ℤ) + dx, (antY i a : ℤ) + dy) ∈ allPts i :=
      mem_allPts.mpr ⟨a, ha, dx, dy, ⟨h1, h2⟩, ⟨h3, h4⟩, rfl⟩
    have hmk : isMarker i ((antX i a : ℤ) + dx).toNat ((antY i a : ℤ) + dy).toNat :=
      ⟨((antX i a : ℤ) + dx, (antY i a : ℤ) + dy), hmem, hinB, rfl, rfl⟩
    rw [finalFrame_eq, if_pos hmk]

/-- C2, witness at frame 0, ant 0, offset (0, 0). -/
theorem C2_markers_witness :
    (0 : ℕ) < 30 ∧ (0 : ℕ) < 10 ∧
    (antX 0 0 : ℤ) = ⌊(405 : ℚ) * (4 / 5) * ((((0 + 0 * 3) % 30 : ℕ)) : ℚ) / 30⌋ + 50 ∧
    inB ((antX 0 0 : ℤ) + 0, (antY 0 0 : ℤ) + 0) ∧
    finalFrame 0 ((antX 0 0 : ℤ) + 0).toNat ((antY 0 0 : ℤ) + 0).toNat = yellow := by
  have hb := antBounds (i := 0) (a := 0) (by norm_num) (by norm_num)
  have hinB : inB ((antX 0 0 : ℤ) + 0, (antY 0 0 : ℤ) + 0) := by
    simp only [inB]
    omega
  exact ⟨by norm_num, by norm_num, (C2_markers 0 0 (by norm_num) (by norm_num)).1.1, hinB,
    (C2_markers 0 0 (by norm_num) (by norm_num)).2 0 0 (by norm_num) (by norm_num)
      (by norm_num) (by norm_num) hinB⟩

/-- C3.  The run produces exactly 30 files, named frame_0000.png through
frame_0029.png with zero-padded four-digit indices, and every frame is
405 wide, 720 tall, with the four channels of Pixel per position. -/
theorem C3_output_files :
    createTestFrames.length = 30 ∧
    createTestFrames.map OutFile.name =
      ["frame_0000.png", "frame_0001.png", "frame_0002.png", "frame_0003.png",
       "frame_0004.png", "frame_0005.png", "frame_0006.png", "frame_0007.png",
       "frame_0008.png", "frame_0009.png", "frame_0010.png", "frame_0011.png",
       "frame_0012.png", "frame_0013.png", "frame_0014.png", "frame_0015.png",
       "frame_0016.png", "frame_0017.png", "frame_0018.png", "frame_0019.png",
       "frame_0020.png", "frame_0021.png", "frame_0022.png", "frame_0023.png",
       "frame_0024.png", "frame_0025.png", "frame_0026.png", "frame_0027.png",
       "frame_0028.png", "frame_0029.png"] ∧
    createTestFrames.map (fun f => (f.image.width, f.image.height)) =
      List.replicate 30 ((405 : ℕ), (720 : ℕ)) := by
  refine ⟨by simp [createTestFrames], ?_, ?_⟩
  · decide!
  · decide!

/-- C4.  The run is deterministic: the i-th output is a pure function of
the index i alone, so two runs produce identical frame buffers. -/
theorem C4_deterministic (i : ℕ) (hi : i < 30) :
    createTestFrames[i]? = some ⟨fname i, ⟨405, 720, finalFrame i⟩⟩ := by
  simp [createTestFrames, List.getElem?_map, List.getElem?_range, hi]

/-- C4, witness at index 0. -/
theorem C4_deterministic_witness :
    (0 : ℕ) < 30 ∧ createTestFrames[0]? = some ⟨fname 0, ⟨405, 720, finalFrame 0⟩⟩ :=
  ⟨by norm_num, C4_deterministic 0 (by norm_num)⟩

/-- C5.  Every pixel of every frame has alpha 255: the gradient writes
alpha 255 everywhere and marker pixels carry alpha 255 as well. -/
theorem C5_alpha_opaque (i x y : ℕ) : (finalFrame i x y).a = 255 := by
  rw [finalFrame_eq]
  by_cases h : isMarker i x y
  · rw [if_pos h]
    rfl
  · rw [if_neg h]
    rfl

/-- C6, counterexample.  In frame 29 the pixel (363, 606) is the center of
marker 0, and its blue channel is 0, not 255: the blue channel is not
approximately 255 on marker pixels. -/
theorem C6_counterexample :
    isMarker 29 363 606 ∧ (finalFrame 29 363 606).b = 0 := by
  have hax : antX 29 0 = 363 := by
    have h := (ant_spec (i := 29) (a := 0) (by norm_num) (by norm_num)).1
    norm_num at h
    exact h
  have hay : antY 29 0 = 606 := by
    have h := (ant_spec (i := 29) (a := 0) (by norm_num) (by norm_num)).2
    norm_num at h
    exact h
  have hmem : ((363 : ℤ), (606 : ℤ)) ∈ allPts 29 := by
    refine mem_allPts.mpr ⟨0, by norm_num, 0, 0, ⟨by norm_num, by norm_num⟩,
      ⟨by norm_num, by norm_num⟩, ?_⟩
    rw [hax, hay]
    norm_num
  have hmk : isMarker 29 363 606 :=
    ⟨((363 : ℤ), (606 : ℤ)), hmem, by norm_num [inB], by decide, by decide⟩
  refine ⟨hmk, ?_⟩
  rw [finalFrame_eq, if_pos hmk]
  rfl

/-- C6, amended.  In frame 29 (time_factor exactly 1), every pixel not
covered by a marker has red 0 and blue 255; marker pixels instead hold
(255, 255, 0, 255), so their blue channel is 0. -/
theorem C6_amended (x y : ℕ) (hx : x < 405) (hy : y < 720) :
    (¬ isMarker 29 x y → (finalFrame 29 x y).r = 0 ∧ (finalFrame 29 x y).b = 255) ∧
    (isMarker 29 x y → finalFrame 29 x y = yellow) := by
  constructor
  · intro hm
    rw [finalFrame_eq, if_neg hm]
    constructor
    · show redv 29 x = 0
      have h1 := redTrunc_spec (i := 29) (by norm_num) hx
      have h2 := redv_eq_trunc (i := 29) (by norm_num) hx
      have h3 : ((29, x) : ℕ × ℕ) ∉ redExcL := by
        simp [redExcL]
      rw [if_neg h3] at h1
      norm_num at h1
      omega
    · show bluev 29 = 255
      have h1 := blueTrunc_spec (i := 29) (by norm_num)
      have h2 := bluev_eq_trunc (i := 29) (by norm_num)
      norm_num at h1
      omega
  · intro hm
    rw [finalFrame_eq, if_pos hm]

/-- C6, witness for the amended theorem at pixel (0, 0) of frame 29. -/
theorem C6_amended_witness :
    (0 : ℕ) < 405 ∧ (0 : ℕ) < 720 ∧
    ((¬ isMarker 29 0 0 → (finalFrame 29 0 0).r = 0 ∧ (finalFrame 29 0 0).b = 255) ∧
     (isMarker 29 0 0 → finalFrame 29 0 0 = yellow)) :=
  ⟨by norm_num, by norm_num, C6_amended 0 0 (by norm_num) (by norm_num)⟩

/-- C7, counterexample.  The existential of the claim is false: there is no
frame, marker and offset whose write position fails the bounds check.  The
marker centers stay in [50, 363] x [50, 606], so every offset position is
strictly inside the 405 x 720 frame and the clipping branch never fires. -/
theorem C7_counterexample :
    ¬ ∃ i, i < 30 ∧ ∃ a, a < 10 ∧ ∃ dx dy : ℤ,
      (-2 ≤ dx ∧ dx ≤ 2) ∧ (-2 ≤ dy ∧ dy ≤ 2) ∧
      ¬ inB ((antX i a : ℤ) + dx, (antY i a : ℤ) + dy) := by
  rintro ⟨i, hi, a, ha, dx, dy, hdx, hdy, hout⟩
  have hb := antBounds hi ha
  apply hout
  simp only [inB]
  refine ⟨?_, ?_, ?_, ?_⟩ <;> omega

/-- C7, amended.  The conditional bounds check of line 45 never skips a
pixel: for every frame i < 30, marker a < 10 and offsets dx, dy in [-2, 2],
the position (ant_x + dx, ant_y + dy) lies within [0, 405) x [0, 720).
Marker squares are never clipped; the check is dead code at these
dimensions. -/
theorem C7_amended (i a : ℕ) (hi : i < 30) (ha : a < 10) (dx dy : ℤ)
    (hdx1 : -2 ≤ dx) (hdx2 : dx ≤ 2) (hdy1 : -2 ≤ dy) (hdy2 : dy ≤ 2) :
    inB ((antX i a : ℤ) + dx, (antY i a : ℤ) + dy) := by
  have hb := antBounds hi ha
  simp only [inB]
  refine ⟨?_, ?_, ?_, ?_⟩ <;> omega

/-- C7, witness at frame 0, ant 0, offset (-2, -2). -/
theorem C7_amended_witness :
    (0 : ℕ) < 30 ∧ (0 : ℕ) < 10 ∧ (-2 : ℤ) ≤ -2 ∧ (-2 : ℤ) ≤ 2 ∧
    inB ((antX 0 0 : ℤ) + (-2), (antY 0 0 : ℤ) + (-2)) :=
  ⟨by norm_num, by norm_num, by norm_num, by norm_num,
    C7_amended 0 0 (by norm_num) (by norm_num) (-2) (-2) (by norm_num) (by norm_num)
      (by norm_num) (by norm_num)⟩

/-- C8.  In frame 0 (time_factor exactly 0), every pixel not covered by a
marker has green 0 and blue 0, and red equal to floor(255 x / 405); that
floor is monotonically non-decreasing in the column index. -/
theorem C8_frame0 :
    (∀ x y : ℕ, x < 405 → y < 720 → ¬ isMarker 0 x y →
      (finalFrame 0 x y).g = 0 ∧ (finalFrame 0 x y).b = 0 ∧
      ((finalFrame 0 x y).r : ℤ) = ⌊(255 : ℚ) * ((x : ℚ) / 405)⌋) ∧
    (∀ x1 x2 : ℕ, x1 ≤ x2 →
      ⌊(255 : ℚ) * ((x1 : ℚ) / 405)⌋ ≤ ⌊(255 : ℚ) * ((x2 : ℚ) / 405)⌋) := by
  constructor
  · intro x y hx hy hm
    rw [finalFrame_eq, if_neg hm]
    refine ⟨?_, ?_, ?_⟩
    · show greenv 0 y = 0
      have h1 := greenTrunc_spec (i := 0) (by norm_num) hy
      have h2 := greenv_eq_trunc (i := 0) (by norm_num) hy
      have h3 : ((0, y) : ℕ × ℕ) ∉ greenExcL := by
        simp [greenExcL]
      rw [if_neg h3] at h1
      norm_num at h1
      omega
    · show bluev 0 = 0
      have h1 := blueTrunc_spec (i := 0) (by norm_num)
      have h2 := bluev_eq_trunc (i := 0) (by norm_num)
      norm_num at h1
      omega
    · show ((redv 0 x : ℤ)) = _
      have h1 := redTrunc_spec (i := 0) (by norm_num) hx
      have h2 := redv_eq_trunc (i := 0) (by norm_num) hx
      have h3 : ((0, x) : ℕ × ℕ) ∉ redExcL := by
        simp [redExcL]
      rw [if_neg h3] at h1
      have h4 : (255 : ℚ) * ((x : ℚ) / 405) = ((255 * x : ℕ) : ℚ) / ((405 : ℕ) : ℚ) := by
        push_cast
        ring
      rw [h4, floorQ]
      have h5 : 17 * x * (29 - 0) / 783 = 255 * x / 405 := by
        have e1 : 17 * x * (29 - 0) = 17 * x * 29 := by norm_num
        have e2 : (783 : ℕ) = 27 * 29 := by norm_num
        have e3 : 255 * x = 17 * x * 15 := by ring
        have e4 : (405 : ℕ) = 27 * 15 := by norm_num
        rw [e1, e2, e3, e4, Nat.mul_div_mul_right _ _ (by norm_num : 0 < 29),
          Nat.mul_div_mul_right _ _ (by norm_num : 0 < 15)]
      omega
  · intro x1 x2 h
    apply Int.floor_mono
    gcongr

/-- C8, witness: pixel (27, 0) of frame 0 has red floor(255 * 27 / 405) and
the floor formula is monotone from column 0 to column 27. -/
theorem C8_frame0_witness :
    ((finalFrame 0 27 0).g = 0 ∧ (finalFrame 0 27 0).b = 0 ∧
      ((finalFrame 0 27 0).r : ℤ) = ⌊(255 : ℚ) * (((27 : ℕ) : ℚ) / 405)⌋) ∧
    ⌊(255 : ℚ) * (((0 : ℕ) : ℚ) / 405)⌋ ≤ ⌊(255 : ℚ) * (((27 : ℕ) : ℚ) / 405)⌋ :=
  ⟨C8_frame0.1 27 0 (by norm_num) (by norm_num) (notMarkerRow0 (by norm_num)),
   C8_frame0.2 0 27 (by norm_num)⟩

/-- C9.  No 8-bit overflow: the truncated red and green values never exceed
254, the truncated blue value never exceeds 255, and the uint8 store of each
is the identity (the cast never wraps).  Marker writes store 255, 255, 0 and
255, also in range. -/
theorem C9_no_overflow (i x y : ℕ) (hi : i < 30) (hx : x < 405) (hy : y < 720) :
    trunc (redD i x) ≤ 254 ∧ redv i x = trunc (redD i x) ∧
    trunc (greenD i y) ≤ 254 ∧ greenv i y = trunc (greenD i y) ∧
    trunc (blueD i) ≤ 255 ∧ bluev i = trunc (blueD i) := by
  have h1 := redTrunc_spec hi hx
  have h2 := redSpec_le (i := i) hx
  have h3 := greenTrunc_spec hi hy
  have h4 := greenSpec_le hi hy
  have h5 := blueTrunc_spec hi
  have h6 := blueSpec_le hi
  refine ⟨by omega, redv_eq_trunc hi hx, by omega, greenv_eq_trunc hi hy, by omega, ?_⟩
  exact bluev_eq_trunc hi

/-- C9, witness at frame 0, pixel (0, 0). -/
theorem C9_no_overflow_witness :
    (0 : ℕ) < 30 ∧ (0 : ℕ) < 405 ∧ (0 : ℕ) < 720 ∧
    (trunc (redD 0 0) ≤ 254 ∧ redv 0 0 = trunc (redD 0 0) ∧
     trunc (greenD 0 0) ≤ 254 ∧ greenv 0 0 = trunc (greenD 0 0) ∧
     trunc (blueD 0) ≤ 255 ∧ bluev 0 = trunc (blueD 0)) :=
  ⟨by norm_num, by norm_num, by norm_num,
    C9_no_overflow 0 0 0 (by norm_num) (by norm_num) (by norm_num)⟩

/-- C10.  Distinct frame indices give distinct frames: pixel (0, 0) is never
covered by a marker, its blue value is the exact floor 255 i / 29, and these
thirty floors are pairwise distinct. -/
theorem C10_frames_distinct (i j : ℕ) (hi : i < 30) (hj : j < 30) (hne : i ≠ j) :
    ∃ x y : ℕ, x < 405 ∧ y < 720 ∧ finalFrame i x y ≠ finalFrame j x y := by
  refine ⟨0, 0, by norm_num, by norm_num, ?_⟩
  rw [finalFrame_eq, if_neg (notMarkerRow0 hi), finalFrame_eq, if_neg (notMarkerRow0 hj)]
  intro heq
  apply blue_floor_inj i hi j hj hne
  have hb : (base i 0 0).b = (base j 0 0).b := congrArg Pixel.b heq
  rw [show (base i 0 0).b = bluev i from rfl, show (base j 0 0).b = bluev j from rfl] at hb
  rw [bluev_eq_trunc hi, bluev_eq_trunc hj, blueTrunc_spec hi, blueTrunc_spec hj] at hb
  exact hb

/-- C10, witness for frames 0 and 1. -/
theorem C10_frames_distinct_witness :
    (0 : ℕ) < 30 ∧ (1 : ℕ) < 30 ∧ (0 : ℕ) ≠ 1 ∧
    ∃ x y : ℕ, x < 405 ∧ y < 720 ∧ finalFrame 0 x y ≠ finalFrame 1 x y :=
  ⟨by norm_num, by norm_num, by norm_num,
    C10_frames_distinct 0 1 (by norm_num) (by norm_num) (by norm_num)⟩

end AntSim
